import Mathlib

/-!
# keyboardcontroller: pedal table and time state

A shallow embedding of `controller/pedal.h` and `controller/time.h`.

* `pedal.h` declares the constant `PEDAL_COUNT`, the enumeration `pedalmode`,
  the record `pedal_t` with a default initialiser on every member, and the
  static table `pedals[PEDAL_COUNT]`.
* `time.h` declares the `uint32_t` constants `TIME_MAX` and `TIME_DEBOUNCE` and
  the two `int` variables `current_time` and `last_time`.

Machine integers are embedded as `Nat`/`Int` together with the range of the
declared C type; conversion on assignment is reduction modulo `2 ^ w`.
-/

namespace KeyboardController

/-! ## C scalar types -/

/-- The scalar types the two headers use: `u w` is a `w`-bit unsigned type,
`s w` a `w`-bit two's-complement signed type. -/
inductive ctype where
  | u (w : Nat)
  | s (w : Nat)
  deriving DecidableEq, Repr

/-- Width of `int` on the 32-bit ARM boards the header's timing link refers to. -/
def INT_BITS : Nat := 32

/-- The type `uint8_t`. -/
def uint8_t : ctype := ctype.u 8

/-- The type `uint16_t`. -/
def uint16_t : ctype := ctype.u 16

/-- The type `uint32_t`. -/
def uint32_t : ctype := ctype.u 32

/-- The type `int`. -/
def c_int : ctype := ctype.s INT_BITS

/-- Whether the type has negative values. -/
def ctype.is_signed : ctype → Bool
  | ctype.u _ => false
  | ctype.s _ => true

/-- Least value of the type. -/
def ctype.min_value : ctype → Int
  | ctype.u _ => 0
  | ctype.s w => -(2 ^ (w - 1))

/-- Greatest value of the type. -/
def ctype.max_value : ctype → Int
  | ctype.u w => 2 ^ w - 1
  | ctype.s w => 2 ^ (w - 1) - 1

/-- Whether `v` is a value of the type. -/
def ctype.holds (t : ctype) (v : Int) : Bool :=
  decide (t.min_value ≤ v) && decide (v ≤ t.max_value)

/-- The value an object of the type has after `v` is assigned to it: the value
of the type congruent to `v` modulo `2 ^ w`. -/
def ctype.store : ctype → Int → Int
  | ctype.u w, v => v % 2 ^ w
  | ctype.s w, v => (v + 2 ^ (w - 1)) % 2 ^ w - 2 ^ (w - 1)

/-! ## pedal.h -/

/-- The constant `static const PEDAL_COUNT = 3;`. -/
def PEDAL_COUNT : Nat := 3

/-- The enumeration `pedalmode`. It is unscoped and has no fixed underlying type,
so its values are those of the smallest bit-field that holds all its
enumerators: the greatest enumerator is 2, which takes two bits, and the values
of the type are `0 .. 2 ^ 2 - 1`. -/
structure pedalmode where
  value : Nat
  in_range : value < 2 ^ 2
  deriving DecidableEq, Repr

/-- First enumerator: `SINGLE`, with value 0. -/
def pedalmode.SINGLE : pedalmode := ⟨0, by decide⟩

/-- Second enumerator: `DOUBLE`, the previous value plus one. -/
def pedalmode.DOUBLE : pedalmode := ⟨1, by decide⟩

/-- Third enumerator: `ANALOG`, the previous value plus one. -/
def pedalmode.ANALOG : pedalmode := ⟨2, by decide⟩

/-- The record `pedal_t`; every member carries the default initialiser of the
header. -/
structure pedal_t where
  pin_tip : Nat := 0
  pin_ring : Nat := 0
  pin_ground : Nat := 0
  midi_cc : Nat := 64
  midi_min_value : Nat := 0
  midi_max_value : Nat := 127
  ad_min_value : Nat := 0
  ad_max_value : Nat := 1023
  mode : pedalmode := pedalmode.SINGLE
  deriving DecidableEq, Repr

/-- Every member holds a value of its declared type: `uint8_t` for the pins, the
controller number and the MIDI bounds, `uint16_t` for the analog bounds. -/
def pedal_t.well_typed (p : pedal_t) : Bool :=
  uint8_t.holds p.pin_tip && uint8_t.holds p.pin_ring && uint8_t.holds p.pin_ground &&
  uint8_t.holds p.midi_cc &&
  uint8_t.holds p.midi_min_value && uint8_t.holds p.midi_max_value &&
  uint16_t.holds p.ad_min_value && uint16_t.holds p.ad_max_value

/-- The table `static pedal_t pedals[PEDAL_COUNT];`: every element is
default-initialised from the member initialisers of `pedal_t`. -/
def pedals : List pedal_t := List.replicate PEDAL_COUNT {}

/-- Modelled from the spec: the headers contain no sampling code; the spec names
0 the sentinel of an unused pin, calls a slot unused when its tip pin is 0, and
says that an unused slot is skipped and never produces an event. -/
def pedal_t.unused (p : pedal_t) : Bool := p.pin_tip == 0

/-! ## time.h -/

/-- The constant `static const uint32_t TIME_MAX = 4294967295;`. -/
def TIME_MAX : Nat := 4294967295

/-- The constant `static const uint32_t TIME_DEBOUNCE = 5000;`. -/
def TIME_DEBOUNCE : Nat := 5000

/-- Declared type of `current_time`: `static int current_time = 0;` -/
def current_time_type : ctype := c_int

/-- Declared type of `last_time`: `static int last_time = 0;` -/
def last_time_type : ctype := c_int

/-- The two timestamp variables of `time.h`. -/
structure time_state where
  current_time : Int := 0
  last_time : Int := 0
  deriving DecidableEq, Repr

/-- The time state after the tick counts `current` and `last` (readings of the
32-bit microsecond counter) are assigned to the two variables. -/
def time_state.assign (current last : Nat) : time_state :=
  { current_time := current_time_type.store current
    last_time := last_time_type.store last }

/-- Every index below `PEDAL_COUNT` addresses a slot, and that slot holds the
default-initialised record. -/
theorem pedals_getElem (i : Nat) (hi : i < PEDAL_COUNT) : pedals[i]? = some {} := by
  have h3 : i < 3 := hi
  interval_cases i <;> rfl

/-- No index from `PEDAL_COUNT` on addresses a slot. -/
theorem pedals_getElem_none (i : Nat) (hi : PEDAL_COUNT ≤ i) : pedals[i]? = none := by
  apply List.getElem?_eq_none
  simpa [pedals] using hi

/-- The default-initialised record holds a value of the declared type in every
member. -/
theorem pedal_default_well_typed : pedal_t.well_typed {} = true := by decide

/-! ## pedal.h: the table -/

/-- C1: the pedal table has exactly `PEDAL_COUNT` slots and `PEDAL_COUNT = 3`; an
index addresses a slot if and only if it is below 3, that is, if and only if it
is 0, 1 or 2. -/
theorem pedals_slot_count :
    PEDAL_COUNT = 3 ∧ pedals.length = PEDAL_COUNT ∧
    (∀ i : Nat, (pedals[i]?).isSome = true ↔ i < 3) ∧
    (∀ i : Nat, i < 3 ↔ (i = 0 ∨ i = 1 ∨ i = 2)) := by
  refine ⟨rfl, rfl, ?_, ?_⟩
  · intro i
    by_cases hi : i < 3
    · simp [pedals_getElem i hi, hi]
    · have hge : PEDAL_COUNT ≤ i := by
        show 3 ≤ i
        omega
      simp [pedals_getElem_none i hge, hi]
  · intro i
    omega

/-- C2: every slot `i < PEDAL_COUNT` of the table as initialised has
`midi_min_value = 0` and `midi_max_value = 127`; both lie in `[0, 127]` and
`midi_min_value ≤ midi_max_value`. -/
theorem pedals_midi_bounds (i : Nat) (hi : i < PEDAL_COUNT) :
    ∃ p : pedal_t, pedals[i]? = some p ∧
      p.midi_min_value = 0 ∧ p.midi_max_value = 127 ∧
      0 ≤ p.midi_min_value ∧ p.midi_min_value ≤ 127 ∧
      0 ≤ p.midi_max_value ∧ p.midi_max_value ≤ 127 ∧
      p.midi_min_value ≤ p.midi_max_value :=
  ⟨{}, pedals_getElem i hi, rfl, rfl, by decide, by decide, by decide, by decide, by decide⟩

/-- Witness of C2 at the last slot. -/
theorem pedals_midi_bounds_witness :
    2 < PEDAL_COUNT ∧
    ∃ p : pedal_t, pedals[2]? = some p ∧
      p.midi_min_value = 0 ∧ p.midi_max_value = 127 ∧
      0 ≤ p.midi_min_value ∧ p.midi_min_value ≤ 127 ∧
      0 ≤ p.midi_max_value ∧ p.midi_max_value ≤ 127 ∧
      p.midi_min_value ≤ p.midi_max_value :=
  ⟨by decide, pedals_midi_bounds 2 (by decide)⟩

/-- C3: every slot `i < PEDAL_COUNT` of the table as initialised has
`ad_min_value = 0` and `ad_max_value = 1023`; both lie in `[0, 1023]`,
`ad_min_value ≤ ad_max_value`, and the two differ, so the divisor
`ad_max_value - ad_min_value` of the analog scaling is not zero. -/
theorem pedals_ad_bounds (i : Nat) (hi : i < PEDAL_COUNT) :
    ∃ p : pedal_t, pedals[i]? = some p ∧
      p.ad_min_value = 0 ∧ p.ad_max_value = 1023 ∧
      0 ≤ p.ad_min_value ∧ p.ad_min_value ≤ 1023 ∧
      0 ≤ p.ad_max_value ∧ p.ad_max_value ≤ 1023 ∧
      p.ad_min_value ≤ p.ad_max_value ∧
      p.ad_max_value ≠ p.ad_min_value ∧
      p.ad_max_value - p.ad_min_value ≠ 0 :=
  ⟨{}, pedals_getElem i hi, rfl, rfl, by decide, by decide, by decide, by decide, by decide,
    by decide, by decide⟩

/-- Witness of C3 at the first slot. -/
theorem pedals_ad_bounds_witness :
    0 < PEDAL_COUNT ∧
    ∃ p : pedal_t, pedals[0]? = some p ∧
      p.ad_min_value = 0 ∧ p.ad_max_value = 1023 ∧
      0 ≤ p.ad_min_value ∧ p.ad_min_value ≤ 1023 ∧
      0 ≤ p.ad_max_value ∧ p.ad_max_value ≤ 1023 ∧
      p.ad_min_value ≤ p.ad_max_value ∧
      p.ad_max_value ≠ p.ad_min_value ∧
      p.ad_max_value - p.ad_min_value ≠ 0 :=
  ⟨by decide, pedals_ad_bounds 0 (by decide)⟩

/-- C4: every slot `i < PEDAL_COUNT` of the table as initialised has
`midi_cc = 64`, which lies in the controller range `[0, 127]`. -/
theorem pedals_midi_cc (i : Nat) (hi : i < PEDAL_COUNT) :
    ∃ p : pedal_t, pedals[i]? = some p ∧
      p.midi_cc = 64 ∧ 0 ≤ p.midi_cc ∧ p.midi_cc ≤ 127 :=
  ⟨{}, pedals_getElem i hi, rfl, by decide, by decide⟩

/-- Witness of C4 at the middle slot. -/
theorem pedals_midi_cc_witness :
    1 < PEDAL_COUNT ∧
    ∃ p : pedal_t, pedals[1]? = some p ∧
      p.midi_cc = 64 ∧ 0 ≤ p.midi_cc ∧ p.midi_cc ≤ 127 :=
  ⟨by decide, pedals_midi_cc 1 (by decide)⟩

/-- C9, as stated, fails: 3 is a value of type `pedalmode` and is none of
`SINGLE`, `DOUBLE`, `ANALOG`, so not every value of the type is one of the
three. -/
theorem pedalmode_not_closed :
    (⟨3, by decide⟩ : pedalmode) ≠ pedalmode.SINGLE ∧
    (⟨3, by decide⟩ : pedalmode) ≠ pedalmode.DOUBLE ∧
    (⟨3, by decide⟩ : pedalmode) ≠ pedalmode.ANALOG ∧
    ¬ (∀ m : pedalmode,
        m = pedalmode.SINGLE ∨ m = pedalmode.DOUBLE ∨ m = pedalmode.ANALOG) := by
  refine ⟨by decide, by decide, by decide, ?_⟩
  intro h
  have h3 := h ⟨3, by decide⟩
  revert h3
  decide

/-- C9, amended: `pedalmode` declares the three enumerators `SINGLE`, `DOUBLE`
and `ANALOG`, pairwise distinct, with values 0, 1 and 2; the values of the type
are `0 .. 3`, so every value of the type is one of the three enumerators or the
value 3, and it is one of the three exactly when it is below 3. -/
theorem pedalmode_enumerators :
    pedalmode.SINGLE ≠ pedalmode.DOUBLE ∧
    pedalmode.SINGLE ≠ pedalmode.ANALOG ∧
    pedalmode.DOUBLE ≠ pedalmode.ANALOG ∧
    pedalmode.SINGLE.value = 0 ∧ pedalmode.DOUBLE.value = 1 ∧ pedalmode.ANALOG.value = 2 ∧
    (∀ m : pedalmode,
      m = pedalmode.SINGLE ∨ m = pedalmode.DOUBLE ∨ m = pedalmode.ANALOG ∨ m.value = 3) ∧
    (∀ m : pedalmode,
      (m = pedalmode.SINGLE ∨ m = pedalmode.DOUBLE ∨ m = pedalmode.ANALOG) ↔ m.value < 3) ∧
    (∀ a b : pedalmode, a.value = b.value ↔ a = b) := by
  refine ⟨by decide, by decide, by decide, rfl, rfl, rfl, ?_, ?_, ?_⟩
  · rintro ⟨v, hv⟩
    have h4 : v < 4 := hv
    interval_cases v
    · exact Or.inl rfl
    · exact Or.inr (Or.inl rfl)
    · exact Or.inr (Or.inr (Or.inl rfl))
    · exact Or.inr (Or.inr (Or.inr rfl))
  · rintro ⟨v, hv⟩
    have h4 : v < 4 := hv
    simp only [pedalmode.SINGLE, pedalmode.DOUBLE, pedalmode.ANALOG, pedalmode.mk.injEq]
    omega
  · rintro ⟨a, ha⟩ ⟨b, hb⟩
    simp

/-- C10: every slot `i < PEDAL_COUNT` of the table as initialised has `pin_tip`,
`pin_ring` and `pin_ground` all 0 and `mode = SINGLE`; it is an unused slot. -/
theorem pedals_initially_unused (i : Nat) (hi : i < PEDAL_COUNT) :
    ∃ p : pedal_t, pedals[i]? = some p ∧
      p.pin_tip = 0 ∧ p.pin_ring = 0 ∧ p.pin_ground = 0 ∧
      p.mode = pedalmode.SINGLE ∧ p.unused = true :=
  ⟨{}, pedals_getElem i hi, rfl, rfl, rfl, rfl, rfl⟩

/-- Witness of C10 at the last slot. -/
theorem pedals_initially_unused_witness :
    2 < PEDAL_COUNT ∧
    ∃ p : pedal_t, pedals[2]? = some p ∧
      p.pin_tip = 0 ∧ p.pin_ring = 0 ∧ p.pin_ground = 0 ∧
      p.mode = pedalmode.SINGLE ∧ p.unused = true :=
  ⟨by decide, pedals_initially_unused 2 (by decide)⟩

/-! ## time.h: constants -/

/-- C7: `TIME_DEBOUNCE` is 5000 and is strictly below `TIME_MAX`; it is a value
of its declared type `uint32_t`. -/
theorem time_debounce_value :
    TIME_DEBOUNCE = 5000 ∧ TIME_DEBOUNCE < TIME_MAX ∧
    uint32_t.holds TIME_DEBOUNCE = true ∧ uint32_t.store TIME_DEBOUNCE = 5000 := by
  decide

/-- C8: `TIME_MAX` is `2 ^ 32 - 1 = 4294967295`, the greatest value of a 32-bit
unsigned integer: every 32-bit tick count is at most `TIME_MAX`, and
`TIME_MAX + 1` wraps to 0 modulo `2 ^ 32`. -/
theorem time_max_value :
    TIME_MAX = 2 ^ 32 - 1 ∧ TIME_MAX = 4294967295 ∧
    (TIME_MAX : Int) = uint32_t.max_value ∧
    (∀ n : Nat, n < 2 ^ 32 ↔ n ≤ TIME_MAX) ∧
    (TIME_MAX + 1) % 2 ^ 32 = 0 ∧
    uint32_t.store ((TIME_MAX : Int) + 1) = 0 := by
  refine ⟨by decide, rfl, by decide, ?_, by decide, by decide⟩
  intro n
  simp only [TIME_MAX]
  omega

/-! ## time.h: the timestamp variables -/

/-- C5, evaluated on the code: `current_time` and `last_time` are declared `int`,
a signed type with range `-2 ^ 31 .. 2 ^ 31 - 1`; the tick count `2 ^ 31`, which
is at most `TIME_MAX`, is held as `-2 ^ 31` by either variable. The same happens
at `2 ^ 15` where `int` has 16 bits. -/
theorem timestamps_declared_signed :
    current_time_type.is_signed = true ∧ last_time_type.is_signed = true ∧
    current_time_type.min_value = -2147483648 ∧ last_time_type.min_value = -2147483648 ∧
    current_time_type.max_value = 2147483647 ∧ last_time_type.max_value = 2147483647 ∧
    2147483648 ≤ TIME_MAX ∧
    (time_state.assign 2147483648 2147483648).current_time = -2147483648 ∧
    (time_state.assign 2147483648 2147483648).last_time = -2147483648 ∧
    (ctype.s 16).store 32768 = -32768 ∧
    uint32_t.store 2147483648 = 2147483648 := by
  decide

end KeyboardController
